import Mathlib

/-!
Verification of the Car_Dealer_WO_AI appointment pipeline.

The repository is a Python automation tool (src/main.py, src/gui_pyqt.py,
src/utils.py) that watches for audio files, transcribes them, extracts an
appointment record via an LLM, appends the record to a spreadsheet, sends a
confirmation email and archives the file.  This file gives a shallow
embedding of the pure data flow of that code.  External services
(speech-to-text, the LLM completion endpoint, `json.loads`, pandas I/O, SMTP,
`os.rename`) are modelled by their outcomes: an `Option`/`Bool` input per
service records what the black-box call returned, and the embedded functions
reproduce exactly what the Python code does with that outcome.
-/

/-- A Python value as it occurs in an appointment record parsed from JSON:
`null`, a string, or a list of strings (`services_provided` may be a list). -/
inductive Val where
  | vnull : Val
  | vstr (s : String) : Val
  | vlist (ss : List String) : Val
deriving Repr, DecidableEq

/-- An appointment record: a Python dict from string keys to values,
modelled as an association list (first binding wins). -/
abbrev Record := List (String × Val)

/-- Python `dict.get(key)`: `some v` if the key is bound, `none` if absent. -/
def Record.get : Record → String → Option Val
  | [], _ => none
  | (k, v) :: rest, key => if key = k then some v else Record.get rest key

/-- Python truthiness of a record value: `None`, `""` and `[]` are falsy. -/
def Val.truthy : Val → Bool
  | .vnull => false
  | .vstr s => !(s = "")
  | .vlist ss => !ss.isEmpty

/-- ASCII single-quote as a string, used when rendering Python lists. -/
def quoteMark : String := String.singleton (Char.ofNat 39)

/-- Python `str()` of a record value as an f-string interpolates it:
`str(None) = "None"`, a string is itself, a list prints quoted elements. -/
def Val.pyStr : Val → String
  | .vnull => "None"
  | .vstr s => s
  | .vlist ss =>
      "[" ++ String.intercalate ", " (ss.map (fun s => quoteMark ++ s ++ quoteMark)) ++ "]"

/-- Python `x or default` applied to `details.get(key)` and then interpolated
into an f-string: falsy or absent values give the default text. -/
def pyOr (v : Option Val) (default : String) : String :=
  match v with
  | some x => if x.truthy then x.pyStr else default
  | none => default

/-! ## ConfigManager (src/utils.py lines 36-54)

A configuration is a list of sections, each a list of key/value pairs.
configparser's `section.get(key)` returns `None` for a missing key; indexing
`self.config[section]` raises `KeyError` for a missing section.  Getter
results are `Except String (Option String)`: `Except.error` models a raised
exception, `Except.ok none` models a normal return of Python `None`. -/

/-- A parsed configuration file: sections mapping to key/value lists. -/
abbrev Config := List (String × List (String × String))

/-- ConfigManager.get_path: raises ValueError when `[PATHS]` is absent,
otherwise returns `self.config['PATHS'].get(key)` (None when key absent). -/
def ConfigManager.get_path (cfg : Config) (key : String) : Except String (Option String) :=
  match cfg.lookup "PATHS" with
  | none => Except.error "Missing [PATHS] section in config.ini"
  | some sec => Except.ok (sec.lookup key)

/-- ConfigManager.get_email_config: `self.config['EMAIL'].get(key)`; indexing
a missing section raises KeyError, a missing key returns None. -/
def ConfigManager.get_email_config (cfg : Config) (key : String) : Except String (Option String) :=
  match cfg.lookup "EMAIL" with
  | none => Except.error "KeyError: EMAIL"
  | some sec => Except.ok (sec.lookup key)

/-- ConfigManager.get_whisper_config: `self.config['WHISPER'].get(key)`. -/
def ConfigManager.get_whisper_config (cfg : Config) (key : String) : Except String (Option String) :=
  match cfg.lookup "WHISPER" with
  | none => Except.error "KeyError: WHISPER"
  | some sec => Except.ok (sec.lookup key)

/-- ConfigManager.get_openai_config: `self.config['OPENAI'].get(key)`. -/
def ConfigManager.get_openai_config (cfg : Config) (key : String) : Except String (Option String) :=
  match cfg.lookup "OPENAI" with
  | none => Except.error "KeyError: OPENAI"
  | some sec => Except.ok (sec.lookup key)

/-! ## DataExtractor (src/utils.py lines 106-138) -/

/-- DataExtractor.extract_info, given the outcome of `json.loads` on the
(code-fence-stripped) LLM response text: the parse outcome is `some r` when
the text parses to a JSON object `r`, `none` when it is not parseable JSON.
On a parse failure the Python code logs
"Error extracting data from LLM: ..." and re-raises; on success it returns
the parsed object unchanged — no key normalisation is performed. -/
def DataExtractor.extract_info (parsed : Option Record) : Except String Record :=
  match parsed with
  | none => Except.error "Error extracting data from LLM"
  | some r => Except.ok r

/-! ## ExcelManager (src/utils.py lines 141-167)

The spreadsheet file is modelled as `Option Table`: `none` means the file
does not exist on disk (or creation failed), `some t` is its tabular
contents.  pandas' whole-file read/rewrite is atomic at this level: a failed
write (`storeOk = false`) leaves the file unchanged and raises. -/

/-- A single-sheet tabular file: a header row and data rows of cells. -/
structure Table where
  header : List String
  rows : List (List Val)
deriving Repr, DecidableEq

/-- The fixed nine-column header `self.headers` of ExcelManager. -/
def ExcelManager.headers : List String :=
  ["name", "email", "phone", "plate", "model", "date",
   "time_of_call", "time_of_appointment", "services_provided"]

/-- The row built by add_appointment:
`new_entry = \x7bcol: appointment_data.get(col, "") for col in self.headers\x7d`
— each header column's value from the record, `""` if the key is absent. -/
def ExcelManager.rowOf (r : Record) : List Val :=
  ExcelManager.headers.map (fun col => (r.get col).getD (Val.vstr ""))

/-- The pure effect of add_appointment on the table contents: append the
row built from the record (`pd.concat` with `ignore_index=True`). -/
def ExcelManager.add_row (t : Table) (r : Record) : Table :=
  { t with rows := t.rows ++ [ExcelManager.rowOf r] }

/-- ExcelManager._ensure_excel_file_exists: when the file exists it is left
untouched; when absent, creation is attempted (`createOk` is the outcome of
`df.to_excel`) and any failure is logged but NOT re-raised — the method
always returns normally (it is a total function here).  The second component
is the log lines appended. -/
def ExcelManager.ensure_excel_file_exists (createOk : Bool) (file : Option Table) :
    Option Table × List String :=
  match file with
  | some t => (some t, [])
  | none =>
      if createOk then
        (some { header := ExcelManager.headers, rows := [] },
         ["Excel file not found. Creating new one", "Created new Excel file."])
      else
        (none, ["Excel file not found. Creating new one", "Failed to create Excel file"])

/-- ExcelManager.add_appointment acting on the store file: `pd.read_excel`
raises when the file is missing, the rewrite raises when I/O fails
(`storeOk = false`); both are logged "Error saving to Excel" and re-raised.
On success the file holds the table with the new row appended. -/
def ExcelManager.add_appointment (storeOk : Bool) (file : Option Table) (r : Record) :
    Except String Table :=
  match file with
  | none => Except.error "Error saving to Excel"
  | some t =>
      if storeOk then Except.ok (ExcelManager.add_row t r)
      else Except.error "Error saving to Excel"

/-- A fresh store as created by ensure_excel_file_exists: header only, no rows. -/
def freshTable : Table := { header := ExcelManager.headers, rows := [] }

/-- Calling add_appointment once per record of `rs`, all writes succeeding. -/
def ExcelManager.addAll (t : Table) (rs : List Record) : Table :=
  rs.foldl ExcelManager.add_row t

/-! ## EmailSender (src/utils.py lines 170-224)

Only the pure rendering of the confirmation message is embedded; the SMTP
transport is a black-box service whose success is an input to the pipeline
model.  The f-string of `send_confirmation` is reproduced literally, with
each interpolation hole replaced by the Python rendering of the looked-up
record value. -/

/-- Python `details.get(key, default)` interpolated into an f-string: the
stored value's `str()` when the key is bound (even when bound to None),
otherwise the default text. -/
def Record.getPyDefault (r : Record) (k d : String) : String :=
  match r.get k with
  | some v => v.pyStr
  | none => d

/-- Python `details.get(key)` interpolated into an f-string: an absent key
yields None, which `str()` renders as the literal text "None". -/
def Record.getStr (r : Record) (k : String) : String :=
  ((r.get k).getD Val.vnull).pyStr

/-- The `services_html` fragment of send_confirmation: a `<ul>` of `<li>`
items when the value is a Python list, otherwise a `<p>` holding
`services_list or 'Not specified'`. -/
def EmailSender.services_html (details : Record) : String :=
  match details.get "services_provided" with
  | some (Val.vlist ss) =>
      "<ul>" ++ String.join (ss.map (fun s => "<li>" ++ s ++ "</li>")) ++ "</ul>"
  | v => "<p>" ++ pyOr v "Not specified" ++ "</p>"

/-- The HTML body built by EmailSender.send_confirmation (utils.py 192-211),
the f-string written out with its interpolation holes filled per Python
semantics.  Note the template interpolates name, email, phone, date,
time_of_appointment, model, plate and services_provided — and nothing else. -/
def EmailSender.render_html (details : Record) : String :=
  "\n            <html>\n                <body>\n" ++
  "                    <h2>Appointment Confirmation</h2>\n" ++
  "                    <p>Dear " ++ details.getPyDefault "name" "Customer" ++ ",</p>\n" ++
  "                    <p>This confirms your appointment:</p>\n" ++
  "                    <ul>\n" ++
  "                        <li><strong>Name:</strong> " ++ details.getStr "name" ++ "</li>\n" ++
  "                        <li><strong>Email:</strong> " ++ details.getStr "email" ++ "</li>\n" ++
  "                        <li><strong>Phone:</strong> " ++
    pyOr (details.get "phone") "Not available" ++ "</li>\n" ++
  "                        <li><strong>Date:</strong> " ++ details.getStr "date" ++ "</li>\n" ++
  "                        <li><strong>Time:</strong> " ++
    pyOr (details.get "time_of_appointment") "Not specified" ++ "</li>\n" ++
  "                        <li><strong>Vehicle:</strong> " ++ details.getStr "model" ++ "</li>\n" ++
  "                        <li><strong>Plate Number:</strong> " ++ details.getStr "plate" ++ "</li>\n" ++
  "                        <li><strong>Requested Services:</strong> " ++
    EmailSender.services_html details ++ "</li>\n" ++
  "                    </ul>\n" ++
  "                    <p>Please contact us if you need to reschedule.</p>\n" ++
  "                </body>\n            </html>\n            "

/-! ## Orchestrator (src/main.py process_audio_file, src/gui_pyqt.py run_pipeline) -/

/-- The recipient expression shared by both entry points:
`appointment_data.get('email') or 'cnayak70@gmail.com'` — the extracted
email when truthy, otherwise the fixed fallback address. -/
def recipientOf (data : Record) : Val :=
  match data.get "email" with
  | some v => if v.truthy then v else Val.vstr "cnayak70@gmail.com"
  | none => Val.vstr "cnayak70@gmail.com"

/-- Python `os.path.basename` for forward-slash paths. -/
def basename (p : String) : String := ((p.splitOn "/").getLast?).getD p

/-- Outcomes of the black-box services consulted during one pipeline run:
the transcription result (`none` = the transcription step raised), the
`json.loads` outcome on the extraction response (`none` = not parseable
JSON), and success flags for the spreadsheet write, the SMTP delivery and
the archive `os.rename`. -/
structure RunInput where
  transcribeResult : Option String
  extractParse : Option Record
  storeOk : Bool
  emailOk : Bool
  renameOk : Bool
deriving Repr, DecidableEq

/-- The observable state a pipeline run acts on: the appointments store
file, whether the source audio file still sits at its original path, the
base names present in the processed directory, the transcripts written so
far, the emails submitted (recipient and record), and the error log. -/
structure PipeState where
  storeFile : Option Table
  sourceExists : Bool
  processedFiles : List String
  transcripts : List String
  emailsSent : List (Val × Record)
  log : List String
deriving Repr, DecidableEq

/-- NewFileHandler.process_audio_file (src/main.py 22-75): transcribe, save
the transcript, extract, reject an empty record, append to the store, send
the confirmation, then move the file; the enclosing try/except turns the
first failing step into a logged abort, leaving all later effects undone. -/
def process_audio_file (inp : RunInput) (path : String) (s : PipeState) : PipeState :=
  match inp.transcribeResult with
  | none =>
      { s with log := s.log ++ ["Error during transcription",
                               "Error processing file " ++ path] }
  | some transcript =>
      let s1 := { s with transcripts := s.transcripts ++ [transcript] }
      match DataExtractor.extract_info inp.extractParse with
      | Except.error e =>
          { s1 with log := s1.log ++ [e, "Error processing file " ++ path] }
      | Except.ok data =>
          if data = [] then
            { s1 with log := s1.log ++
                ["No appointment data could be extracted from transcript",
                 "Error processing file " ++ path] }
          else
            match ExcelManager.add_appointment inp.storeOk s1.storeFile data with
            | Except.error e =>
                { s1 with log := s1.log ++ [e, "Error processing file " ++ path] }
            | Except.ok t =>
                let s2 := { s1 with storeFile := some t }
                if inp.emailOk then
                  let s3 := { s2 with
                    emailsSent := s2.emailsSent ++ [(recipientOf data, data)] }
                  if inp.renameOk then
                    { s3 with sourceExists := false,
                              processedFiles := s3.processedFiles ++ [basename path] }
                  else
                    { s3 with log := s3.log ++ ["Error processing file " ++ path] }
                else
                  { s2 with log := s2.log ++ ["Failed to send email",
                                              "Error processing file " ++ path] }

/-- MainWindow.run_pipeline (src/gui_pyqt.py 154-177): the same pipeline
driven from the GUI; it writes no transcript file, performs no empty-record
check, and reports errors to the on-screen log. -/
def run_pipeline (inp : RunInput) (path : String) (s : PipeState) : PipeState :=
  match inp.transcribeResult with
  | none => { s with log := s.log ++ ["Error during transcription"] }
  | some _ =>
      match DataExtractor.extract_info inp.extractParse with
      | Except.error e => { s with log := s.log ++ [e] }
      | Except.ok data =>
          match ExcelManager.add_appointment inp.storeOk s.storeFile data with
          | Except.error e => { s with log := s.log ++ [e] }
          | Except.ok t =>
              let s2 := { s with storeFile := some t }
              if inp.emailOk then
                let s3 := { s2 with
                  emailsSent := s2.emailsSent ++ [(recipientOf data, data)] }
                if inp.renameOk then
                  { s3 with sourceExists := false,
                            processedFiles := s3.processedFiles ++ [basename path] }
                else
                  { s3 with log := s3.log ++ ["Error moving file"] }
              else
                { s2 with log := s2.log ++ ["Failed to send email"] }

/-- All steps of a process_audio_file run succeed: transcription returned
text, the response parsed to a non-empty JSON object, the store file exists
and its write succeeds, the email is delivered and the archive move works. -/
def successRun (inp : RunInput) (s : PipeState) : Bool :=
  inp.transcribeResult.isSome &&
  (match inp.extractParse with
   | some r => !decide (r = [])
   | none => false) &&
  s.storeFile.isSome && inp.storeOk && inp.emailOk && inp.renameOk

/-! ## Shared concrete fixtures and helper lemmas -/

/-- The empty observable state a run starts from: the store file exists
fresh, the source file is at its original path, nothing processed yet. -/
def initState : PipeState :=
  { storeFile := some freshTable, sourceExists := true, processedFiles := [],
    transcripts := [], emailsSent := [], log := [] }

/-- Appending rows with addAll concatenates the per-record rows. -/
theorem ExcelManager.addAll_rows (rs : List Record) (t : Table) :
    (ExcelManager.addAll t rs).rows = t.rows ++ rs.map ExcelManager.rowOf := by
  induction rs generalizing t with
  | nil => simp [ExcelManager.addAll]
  | cons r rs ih =>
      show (ExcelManager.addAll (ExcelManager.add_row t r) rs).rows = _
      rw [ih]
      simp [ExcelManager.add_row]

/-! ## Claims -/

/-- C1: for every sequence of N appointment records, calling add_appointment
N times starting from a fresh store (header only) yields a table with
exactly N data rows, and the Nth row's cells are the Nth input record's
values taken per header column in the fixed header order, with the empty
string substituted for every key absent from that record (`rowOf` is
exactly the row comprehension of add_appointment). -/
theorem c1_add_appointment_append_only (rs : List Record) :
    (ExcelManager.addAll freshTable rs).rows = rs.map ExcelManager.rowOf ∧
    (ExcelManager.addAll freshTable rs).rows.length = rs.length ∧
    ∀ n : Nat, (ExcelManager.addAll freshTable rs).rows[n]? =
      (rs[n]?).map ExcelManager.rowOf := by
  have h := ExcelManager.addAll_rows rs freshTable
  rw [show freshTable.rows = [] from rfl, List.nil_append] at h
  refine ⟨h, by rw [h]; simp, fun n => by rw [h]; simp⟩

/-- C3 counterexample: with the `[PATHS]` (resp. `[EMAIL]`) section present
but the requested key absent, the getters do NOT fail: they return Python
`None` (modelled `Except.ok none`), refuting the claim that a key absent
from an existing section is an error. -/
theorem c3_counterexample_missing_key_is_none :
    ConfigManager.get_path [("PATHS", [])] "audio_input_dir" = Except.ok none ∧
    ConfigManager.get_email_config [("EMAIL", [])] "smtp_server" = Except.ok none ∧
    ConfigManager.get_whisper_config [("WHISPER", [])] "model_path" = Except.ok none ∧
    ConfigManager.get_openai_config [("OPENAI", [])] "api_key" = Except.ok none := by
  refine ⟨rfl, rfl, rfl, rfl⟩

/-- C3 amended: each getter returns exactly the stored string when its
section and the key exist, and raises when the named section is absent; but
when the key is absent from an existing section it returns None (no error). -/
theorem c3_amended_config_getters (cfg : Config) (sec : List (String × String))
    (key val : String) :
    (cfg.lookup "PATHS" = some sec → sec.lookup key = some val →
        ConfigManager.get_path cfg key = Except.ok (some val)) ∧
    (cfg.lookup "PATHS" = none →
        ConfigManager.get_path cfg key =
          Except.error "Missing [PATHS] section in config.ini") ∧
    (cfg.lookup "PATHS" = some sec → sec.lookup key = none →
        ConfigManager.get_path cfg key = Except.ok none) ∧
    (cfg.lookup "EMAIL" = some sec → sec.lookup key = some val →
        ConfigManager.get_email_config cfg key = Except.ok (some val)) ∧
    (cfg.lookup "EMAIL" = none →
        ConfigManager.get_email_config cfg key = Except.error "KeyError: EMAIL") ∧
    (cfg.lookup "EMAIL" = some sec → sec.lookup key = none →
        ConfigManager.get_email_config cfg key = Except.ok none) ∧
    (cfg.lookup "WHISPER" = some sec → sec.lookup key = some val →
        ConfigManager.get_whisper_config cfg key = Except.ok (some val)) ∧
    (cfg.lookup "WHISPER" = none →
        ConfigManager.get_whisper_config cfg key = Except.error "KeyError: WHISPER") ∧
    (cfg.lookup "WHISPER" = some sec → sec.lookup key = none →
        ConfigManager.get_whisper_config cfg key = Except.ok none) ∧
    (cfg.lookup "OPENAI" = some sec → sec.lookup key = some val →
        ConfigManager.get_openai_config cfg key = Except.ok (some val)) ∧
    (cfg.lookup "OPENAI" = none →
        ConfigManager.get_openai_config cfg key = Except.error "KeyError: OPENAI") ∧
    (cfg.lookup "OPENAI" = some sec → sec.lookup key = none →
        ConfigManager.get_openai_config cfg key = Except.ok none) := by
  refine ⟨fun h1 h2 => by simp [ConfigManager.get_path, h1, h2],
          fun h1 => by simp [ConfigManager.get_path, h1],
          fun h1 h2 => by simp [ConfigManager.get_path, h1, h2],
          fun h1 h2 => by simp [ConfigManager.get_email_config, h1, h2],
          fun h1 => by simp [ConfigManager.get_email_config, h1],
          fun h1 h2 => by simp [ConfigManager.get_email_config, h1, h2],
          fun h1 h2 => by simp [ConfigManager.get_whisper_config, h1, h2],
          fun h1 => by simp [ConfigManager.get_whisper_config, h1],
          fun h1 h2 => by simp [ConfigManager.get_whisper_config, h1, h2],
          fun h1 h2 => by simp [ConfigManager.get_openai_config, h1, h2],
          fun h1 => by simp [ConfigManager.get_openai_config, h1],
          fun h1 h2 => by simp [ConfigManager.get_openai_config, h1, h2]⟩

/-- C3 witness: the amended behaviour evaluated on a concrete config. -/
theorem c3_amended_config_getters_witness :
    ConfigManager.get_path [("PATHS", [("audio_input_dir", "in")])] "audio_input_dir" =
      Except.ok (some "in") :=
  (c3_amended_config_getters [("PATHS", [("audio_input_dir", "in")])]
    [("audio_input_dir", "in")] "audio_input_dir" "in").1 rfl rfl

/-- C4 counterexample: a service response that parses to a one-key JSON
object is returned as-is by extract_info — the result does not have the
nine fixed keys and the missing keys (here "email") are absent rather than
present with a null value. -/
theorem c4_counterexample_keys_not_normalised :
    DataExtractor.extract_info (some [("name", Val.vstr "Bob")]) =
      Except.ok [("name", Val.vstr "Bob")] ∧
    Record.get [("name", Val.vstr "Bob")] "email" = none ∧
    ([("name", Val.vstr "Bob")] : Record).length ≠ ExcelManager.headers.length := by
  refine ⟨rfl, by decide, by decide⟩

/-- C4 amended: extract_info returns the parsed JSON object unchanged; it
does not enforce the nine-key schema, so a key missing from the parsed JSON
is absent from the result (the nine-key shape with nulls is merely requested
from the LLM by the prompt, not established by the code). -/
theorem c4_amended_extract_info_returns_parse (r : Record) (k : String) :
    DataExtractor.extract_info (some r) = Except.ok r ∧
    (r.get k = none → ∃ rec, DataExtractor.extract_info (some r) = Except.ok rec ∧
        rec.get k = none) :=
  ⟨rfl, fun h => ⟨r, rfl, h⟩⟩

/-- C4 witness: the amended behaviour at a concrete parsed record. -/
theorem c4_amended_extract_info_returns_parse_witness :
    ∃ rec, DataExtractor.extract_info (some [("name", Val.vstr "Bob")]) =
        Except.ok rec ∧ Record.get rec "phone" = none :=
  (c4_amended_extract_info_returns_parse [("name", Val.vstr "Bob")] "phone").2 (by decide)

/-- C8: store creation is idempotent — any number of ensure_excel_file_exists
invocations leave an existing file untouched, and only an absent file is
created, containing exactly the nine-column header and no data rows. -/
theorem c8_ensure_store_idempotent (t : Table) (ok : Bool) (n : Nat) :
    (fun f => (ExcelManager.ensure_excel_file_exists ok f).fst)^[n] (some t) = some t ∧
    (ExcelManager.ensure_excel_file_exists ok (some t)).fst = some t ∧
    (ExcelManager.ensure_excel_file_exists true none).fst = some freshTable ∧
    freshTable.rows = [] ∧
    freshTable.header = ExcelManager.headers ∧
    ExcelManager.headers.length = 9 := by
  refine ⟨Function.iterate_fixed rfl n, rfl, rfl, rfl, rfl, rfl⟩

/-- C10 (implicit): a failed creation of the missing store file is logged
and swallowed — ensure_excel_file_exists still returns (it is a total
function), the file stays absent, and the failure surfaces only when the
first add_appointment call tries to read the missing file and errors. -/
theorem c10_creation_failure_swallowed (r : Record) (ok : Bool) :
    (ExcelManager.ensure_excel_file_exists false none).fst = none ∧
    "Failed to create Excel file" ∈ (ExcelManager.ensure_excel_file_exists false none).snd ∧
    ExcelManager.add_appointment ok none r = Except.error "Error saving to Excel" := by
  refine ⟨rfl, by simp [ExcelManager.ensure_excel_file_exists], rfl⟩

/-- C2: when the extraction service's text is not parseable JSON
(`extractParse = none`), extract_info raises, the run aborts with the store
file, sent emails and source location untouched, and the log holds the
extraction step's error line. -/
theorem c2_extraction_failure_aborts_before_store (inp : RunInput) (path tx : String)
    (s : PipeState) (h1 : inp.transcribeResult = some tx) (h2 : inp.extractParse = none) :
    DataExtractor.extract_info inp.extractParse =
      Except.error "Error extracting data from LLM" ∧
    (process_audio_file inp path s).storeFile = s.storeFile ∧
    (process_audio_file inp path s).emailsSent = s.emailsSent ∧
    (process_audio_file inp path s).sourceExists = s.sourceExists ∧
    "Error extracting data from LLM" ∈ (process_audio_file inp path s).log := by
  simp [process_audio_file, DataExtractor.extract_info, h1, h2]

/-- C2 witness: a run with unparseable extraction output on a fresh state. -/
theorem c2_extraction_failure_witness :
    (process_audio_file ⟨some "hello", none, true, true, true⟩ "a.wav" initState).storeFile =
      initState.storeFile :=
  (c2_extraction_failure_aborts_before_store ⟨some "hello", none, true, true, true⟩
    "a.wav" "hello" initState rfl rfl).2.1

/-- C6: when the store write succeeds and the subsequent email step fails,
the appended row remains in the store after the run aborts — there is no
rollback; the same holds for the GUI pipeline. -/
theorem c6_no_rollback_on_email_failure (inp : RunInput) (path tx : String)
    (s : PipeState) (t0 : Table) (r : Record)
    (h1 : inp.transcribeResult = some tx) (h2 : inp.extractParse = some r)
    (h3 : r ≠ []) (h4 : s.storeFile = some t0)
    (h5 : inp.storeOk = true) (h6 : inp.emailOk = false) :
    (process_audio_file inp path s).storeFile = some (ExcelManager.add_row t0 r) ∧
    (process_audio_file inp path s).sourceExists = s.sourceExists ∧
    "Failed to send email" ∈ (process_audio_file inp path s).log ∧
    (run_pipeline inp path s).storeFile = some (ExcelManager.add_row t0 r) ∧
    (run_pipeline inp path s).sourceExists = s.sourceExists := by
  simp [process_audio_file, run_pipeline, DataExtractor.extract_info,
        ExcelManager.add_appointment, h1, h2, h3, h4, h5, h6]

/-- C6 witness: store write succeeds, email fails, on concrete inputs. -/
theorem c6_no_rollback_witness :
    (process_audio_file ⟨some "hello", some [("name", Val.vstr "Sam")], true, false, true⟩
        "a.wav" initState).storeFile =
      some (ExcelManager.add_row freshTable [("name", Val.vstr "Sam")]) :=
  (c6_no_rollback_on_email_failure
    ⟨some "hello", some [("name", Val.vstr "Sam")], true, false, true⟩ "a.wav" "hello"
    initState freshTable [("name", Val.vstr "Sam")]
    rfl rfl (by decide) rfl rfl rfl).1

/-- C9: on a fully successful run exactly one email is submitted, its
recipient being `appointment_data.get('email') or 'cnayak70@gmail.com'`:
the extracted email when it is a non-empty string, the fixed fallback
address when the record has no email (absent or null). -/
theorem c9_recipient_and_single_email (inp : RunInput) (path tx : String)
    (s : PipeState) (t0 : Table) (r : Record)
    (h1 : inp.transcribeResult = some tx) (h2 : inp.extractParse = some r)
    (h3 : r ≠ []) (h4 : s.storeFile = some t0)
    (h5 : inp.storeOk = true) (h6 : inp.emailOk = true) (h7 : inp.renameOk = true) :
    (process_audio_file inp path s).emailsSent = s.emailsSent ++ [(recipientOf r, r)] ∧
    (∀ e : String, e ≠ "" → r.get "email" = some (Val.vstr e) →
        recipientOf r = Val.vstr e) ∧
    (r.get "email" = none ∨ r.get "email" = some Val.vnull →
        recipientOf r = Val.vstr "cnayak70@gmail.com") := by
  refine ⟨?_, ?_, ?_⟩
  · simp [process_audio_file, DataExtractor.extract_info,
          ExcelManager.add_appointment, h1, h2, h3, h4, h5, h6, h7]
  · intro e he hget
    simp [recipientOf, hget, Val.truthy, he]
  · intro hcase
    rcases hcase with hget | hget <;> simp [recipientOf, hget, Val.truthy]

/-- C9 witness: a successful run whose record carries an email address. -/
theorem c9_recipient_witness :
    (process_audio_file ⟨some "hello", some [("email", Val.vstr "sam@x.com")], true, true, true⟩
        "a.wav" initState).emailsSent =
      initState.emailsSent ++
        [(recipientOf [("email", Val.vstr "sam@x.com")], [("email", Val.vstr "sam@x.com")])] :=
  (c9_recipient_and_single_email
    ⟨some "hello", some [("email", Val.vstr "sam@x.com")], true, true, true⟩ "a.wav" "hello"
    initState freshTable [("email", Val.vstr "sam@x.com")]
    rfl rfl (by decide) rfl rfl rfl rfl).1

/-- All steps of a GUI run_pipeline run succeed (it has no empty-record
check, so any parsed JSON object will do). -/
def successRunGui (inp : RunInput) (s : PipeState) : Bool :=
  inp.transcribeResult.isSome && inp.extractParse.isSome &&
  s.storeFile.isSome && inp.storeOk && inp.emailOk && inp.renameOk

/-- Characterisation of the watcher pipeline's archiving effect: the source
file moves exactly when every step succeeds. -/
theorem process_audio_file_archive_char (inp : RunInput) (path : String) (s : PipeState) :
    (process_audio_file inp path s).sourceExists =
      (if successRun inp s then false else s.sourceExists) ∧
    (process_audio_file inp path s).processedFiles =
      (if successRun inp s then s.processedFiles ++ [basename path]
       else s.processedFiles) := by
  obtain ⟨tr, ex, so, eo, ro⟩ := inp
  rcases tr with _ | tx <;> rcases ex with _ | r <;>
    rcases hsf : s.storeFile with _ | t0 <;> cases so <;> cases eo <;> cases ro <;>
    simp_all [process_audio_file, successRun, DataExtractor.extract_info,
              ExcelManager.add_appointment] <;>
    (rcases eq_or_ne r ([] : Record) with hr | hr <;> simp_all)

/-- Characterisation of the GUI pipeline's archiving effect. -/
theorem run_pipeline_archive_char (inp : RunInput) (path : String) (s : PipeState) :
    (run_pipeline inp path s).sourceExists =
      (if successRunGui inp s then false else s.sourceExists) ∧
    (run_pipeline inp path s).processedFiles =
      (if successRunGui inp s then s.processedFiles ++ [basename path]
       else s.processedFiles) := by
  obtain ⟨tr, ex, so, eo, ro⟩ := inp
  rcases tr with _ | tx <;> rcases ex with _ | r <;>
    rcases hsf : s.storeFile with _ | t0 <;> cases so <;> cases eo <;> cases ro <;>
    simp_all [run_pipeline, successRunGui, DataExtractor.extract_info,
              ExcelManager.add_appointment]

/-- C7: when every step of a run succeeds the source file no longer exists
at its original path and a file with the identical base name is in the
processed directory; when any step fails the source file stays put and
nothing is archived — for both the watcher and the GUI pipeline. -/
theorem c7_archiving (inp : RunInput) (path : String) (s : PipeState)
    (h : s.sourceExists = true) :
    (successRun inp s = true →
        (process_audio_file inp path s).sourceExists = false ∧
        basename path ∈ (process_audio_file inp path s).processedFiles) ∧
    (successRun inp s = false →
        (process_audio_file inp path s).sourceExists = true ∧
        (process_audio_file inp path s).processedFiles = s.processedFiles) ∧
    (successRunGui inp s = true →
        (run_pipeline inp path s).sourceExists = false ∧
        basename path ∈ (run_pipeline inp path s).processedFiles) ∧
    (successRunGui inp s = false →
        (run_pipeline inp path s).sourceExists = true ∧
        (run_pipeline inp path s).processedFiles = s.processedFiles) := by
  obtain ⟨h1, h2⟩ := process_audio_file_archive_char inp path s
  obtain ⟨h3, h4⟩ := run_pipeline_archive_char inp path s
  refine ⟨fun hs => ?_, fun hs => ?_, fun hs => ?_, fun hs => ?_⟩ <;>
    simp_all

/-- C7 witness: a fully successful run on concrete inputs archives the
file; flipping the email flag to failure leaves it in place. -/
theorem c7_archiving_witness :
    (process_audio_file ⟨some "hello", some [("name", Val.vstr "Sam")], true, true, true⟩
        "in/a.wav" initState).sourceExists = false ∧
    (process_audio_file ⟨some "hello", some [("name", Val.vstr "Sam")], true, false, true⟩
        "in/a.wav" initState).sourceExists = true :=
  ⟨((c7_archiving ⟨some "hello", some [("name", Val.vstr "Sam")], true, true, true⟩
      "in/a.wav" initState rfl).1 (by decide)).1,
   ((c7_archiving ⟨some "hello", some [("name", Val.vstr "Sam")], true, false, true⟩
      "in/a.wav" initState rfl).2.1 (by decide)).1⟩

/-- Whether `pat` is an initial segment of `s` (character lists). -/
def isPre (pat s : List Char) : Bool :=
  match pat, s with
  | [], _ => true
  | _ :: _, [] => false
  | p :: ps, c :: cs => p = c && isPre ps cs

/-- Number of (possibly overlapping) occurrences of `pat` in `s`,
counted at every suffix position; kernel-reducible, unlike String.splitOn. -/
def occCount (pat s : List Char) : Nat :=
  match s with
  | [] => 0
  | _ :: rest => (if isPre pat s then 1 else 0) + occCount pat rest

/-- A record carrying all nine fixed keys, with a chosen time_of_call. -/
def sampleRecordToc (toc : Val) : Record :=
  [("name", Val.vstr "Sam"), ("email", Val.vstr "sam@x.com"),
   ("phone", Val.vstr "555-1234"), ("plate", Val.vstr "ABC123"),
   ("model", Val.vstr "Honda Civic"), ("date", Val.vstr "2024-01-01"),
   ("time_of_call", toc), ("time_of_appointment", Val.vstr "3pm"),
   ("services_provided", Val.vstr "oil change")]

/-- A record carrying all nine fixed keys, every value null. -/
def allNullRecord : Record :=
  [("name", Val.vnull), ("email", Val.vnull), ("phone", Val.vnull),
   ("plate", Val.vnull), ("model", Val.vnull), ("date", Val.vnull),
   ("time_of_call", Val.vnull), ("time_of_appointment", Val.vnull),
   ("services_provided", Val.vnull)]

set_option maxRecDepth 200000 in
/-- C5 counterexample: the rendered confirmation HTML does not embed the
time_of_call field — two records agreeing everywhere except time_of_call
render to the identical document, and the distinctive time_of_call text
never occurs in it; moreover with a null email the document shows the
literal text None in the email position, not a human-readable placeholder. -/
theorem c5_counterexample_time_of_call_not_embedded :
    EmailSender.render_html (sampleRecordToc (Val.vstr "half past nine")) =
      EmailSender.render_html (sampleRecordToc (Val.vstr "ten to six")) ∧
    occCount "half past nine".data
      (EmailSender.render_html (sampleRecordToc (Val.vstr "half past nine"))).data = 0 ∧
    occCount "<li><strong>Email:</strong> None</li>".data
      (EmailSender.render_html allNullRecord).data = 1 := by
  refine ⟨rfl, by decide, by decide⟩

set_option maxRecDepth 200000 in
/-- C5 amended: the rendered HTML embeds eight of the nine record fields —
time_of_call is never embedded (prepending any time_of_call binding leaves
the document unchanged) — and human-readable placeholders appear only for
phone (Not available), time_of_appointment and services_provided
(Not specified), and the greeting name (Customer), shown here on the record
with no keys at all; other missing fields render as the literal text None. -/
theorem c5_amended_render_html (details : Record) (v w : Val) :
    EmailSender.render_html (("time_of_call", v) :: details) =
      EmailSender.render_html (("time_of_call", w) :: details) ∧
    occCount "Not available".data (EmailSender.render_html ([] : Record)).data = 1 ∧
    occCount "Not specified".data (EmailSender.render_html ([] : Record)).data = 2 ∧
    occCount "Dear Customer,".data (EmailSender.render_html ([] : Record)).data = 1 := by
  refine ⟨?_, by decide, by decide, by decide⟩
  simp [EmailSender.render_html, Record.getStr, Record.getPyDefault,
        EmailSender.services_html, pyOr, Record.get]
